import Mathlib

/-!
Verification development for `translate_po.py`, a tool that merges a gettext
template (.pot) with an existing Chinese catalog (zh_CN.po), translating the
entries that need it via an external service.

Strings are modelled as `List Char`.  Python exceptions are modelled with
`Except PyErr`.  The external translation service is an oracle parameter
`Str → Except PyErr Str`; file reads and writes are abstracted away: the
merge takes the template content and the optional existing-output content,
and returns the content that would be written together with the two
counters printed at the end (`total_untranslated`, `current_count`).
-/

namespace TranslatePo

/-- Program strings, at character granularity. -/
abbrev Str := List Char

/-- Python exceptions relevant to this program: the `NameError` raised by the
bare expression on line 110 of the source (a comment missing its `#`), and
any exception raised by the external translation service. -/
inductive PyErr where
  | nameError
  | serviceError
deriving DecidableEq, Repr

/-- The ASCII double-quote character. -/
def asciiDq : Char := Char.ofNat 34

/-- The ASCII single-quote character. -/
def asciiSq : Char := Char.ofNat 39

/-- Full-width left double quotation mark (U+201C), as in the source's
`.replace` call on line 183. -/
def fwLdq : Char := Char.ofNat 8220

/-- Full-width right double quotation mark (U+201D). -/
def fwRdq : Char := Char.ofNat 8221

/-- Full-width left single quotation mark (U+2018). -/
def fwLsq : Char := Char.ofNat 8216

/-- Full-width right single quotation mark (U+2019). -/
def fwRsq : Char := Char.ofNat 8217

/-- The code-sign characters of `should_translate` (source lines 105-107):
`( ) _ { } + = [ ]`. -/
def codeSigns : Str := ['(', ')', '_', '{', '}', '+', '=', '[', ']']

/-- `should_translate(text)` from source lines 90-120, modelled faithfully.

The source checks, in order: empty text (return `False`), then the
code-sign containment check (return `False`).  The next line of the source
(line 110, `包含HTML/XML标签的不翻译`) is a comment whose `#` is missing, so it
is a bare expression statement referring to the undefined names `包含HTML`
and `XML标签的不翻译`; evaluating it raises `NameError`.  Consequently the
markup check (lines 111-114), the numeric/symbol check (lines 116-118) and
the final `return True` are unreachable. -/
def should_translate (text : Str) : Except PyErr Bool :=
  if text.isEmpty then .ok false
  else if codeSigns.any (fun c => text.contains c) then .ok false
  else .error .nameError

/-- One step of Python `str.replace(old, new)`: scan left to right, replace
each non-overlapping occurrence of `old`.  `fuel` bounds the recursion; the
wrapper `pyReplace` supplies enough fuel for every input. -/
def pyReplaceAux (old new : Str) : Nat → Str → Str
  | 0, s => s
  | fuel + 1, s =>
    match s with
    | [] => []
    | c :: rest =>
      if old.isPrefixOf s then new ++ pyReplaceAux old new fuel (s.drop old.length)
      else c :: pyReplaceAux old new fuel rest

/-- Python `s.replace(old, new)` for a non-empty `old`.  (Python's behaviour
for an empty `old` interleaves `new` everywhere; no call site in the source
uses an empty pattern, and we model that unused case as the identity.) -/
def pyReplace (s old new : Str) : Str :=
  if old.isEmpty then s else pyReplaceAux old new (s.length + 1) s

/-- Sanitization of a freshly translated string, source lines 182-187:
full-width double and single quotes are replaced by their ASCII
equivalents, then `.replace('\ n', '\n').replace(' \n', '\n')` runs.  Note
the Python literals: `'\ n'` is the three characters backslash-space-n
(backslash-space is not an escape), while `'\n'` is a single LINE FEED
character — not the two-character sequence backslash `n` (that would be
`'\\n'`).  So the "repair" rewrites backslash-space-n to a raw newline. -/
def sanitize (s : Str) : Str :=
  let s1 := pyReplace s [fwLdq] [asciiDq]
  let s2 := pyReplace s1 [fwRdq] [asciiDq]
  let s3 := pyReplace s2 [fwLsq] [asciiSq]
  let s4 := pyReplace s3 [fwRsq] [asciiSq]
  let s5 := pyReplace s4 ['\\', ' ', 'n'] ['\n']
  pyReplace s5 [' ', '\n'] ['\n']

/-- The search string of the header patch (source line 216):
`'"Project-Id-Version: Odoo Server'`. -/
def hdrPat : Str := "\"Project-Id-Version: Odoo Server".data

/-- The replacement string of the header patch (source lines 217-218): the
two adjacent Python literals concatenate to
`"Project-Id-Version: Odoo Server` + LF + `"` + `"Language: zh_CN` +
backslash + `n` + `"`. -/
def hdrRepl : Str := "\"Project-Id-Version: Odoo Server\n\"\"Language: zh_CN\\n\"".data

/-- The text the header patch inserts after each occurrence of `hdrPat`
(so that `hdrRepl = hdrPat ++ langInsert`). -/
def langInsert : Str := "\n\"\"Language: zh_CN\\n\"".data

/-- The header patch, source lines 215-219:
`translated_content.replace('"Project-Id-Version: Odoo Server', ...)`.
An unconditional `str.replace` over the whole document. -/
def headerPatch (s : Str) : Str := pyReplace s hdrPat hdrRepl

/-- One regex match of the pair pattern
`(msgid ")(.*?)(")\n(msgstr ")(.*?)(")` (source line 155).  Groups 1, 3, 4
and 6 are the fixed literals; only group 2 (the msgid text) and group 5
(the msgstr text) vary. -/
structure PairMatch where
  g2 : Str
  g5 : Str
deriving DecidableEq, Repr

/-- The literal `msgid "` opening the pair pattern. -/
def msgidLit : Str := "msgid \"".data

/-- The literal `"` + LF + `msgstr "` between group 2 and group 5 of the
pair pattern. -/
def msgstrLit : Str := "\"\nmsgstr \"".data

/-- The f-string `f'{match.group(1)}{text}{match.group(3)}\nmsgstr "{tr}"'`
used on source lines 168 and 195 to rebuild a pair. -/
def mkPair (idText trText : Str) : Str :=
  msgidLit ++ idText ++ msgstrLit ++ trText ++ [asciiDq]

/-- `match.group(0)`: the full matched text of a pair. -/
def matchGroup0 (m : PairMatch) : Str := mkPair m.g2 m.g5

/-- The lazy group-5 match `(.*?)(")` with `re.DOTALL`: the shortest prefix
up to the first `"`.  Returns the group text and the remainder after the
closing quote, or `none` when no `"` occurs. -/
def findQuote : Str → Option (Str × Str)
  | [] => none
  | c :: rest =>
    if c = asciiDq then some ([], rest)
    else
      match findQuote rest with
      | some (b, a) => some (c :: b, a)
      | none => none

/-- Attempt to close group 2 at the current position: the literal
`"` + LF + `msgstr "` must follow, and then group 5 must find a closing
quote.  Returns `(group5, remainder)`. -/
def tryClose (s : Str) : Option (Str × Str) :=
  if msgstrLit.isPrefixOf s then findQuote (s.drop msgstrLit.length)
  else none

/-- The lazy group-2 match with backtracking: try to close group 2 after 0
characters, then after 1, and so on — exactly the order a lazy `(.*?)`
explores.  Returns `(group2, group5, remainder)`. -/
def tryG2 : Nat → Str → Option (Str × Str × Str)
  | 0, _ => none
  | fuel + 1, s =>
    match tryClose s with
    | some (g5, rest) => some ([], g5, rest)
    | none =>
      match s with
      | [] => none
      | c :: s' =>
        match tryG2 fuel s' with
        | some (g2, g5, rest) => some (c :: g2, g5, rest)
        | none => none

/-- Attempt to match the pair pattern at the start of `s`.  On success,
returns the match and the remainder of the document after it. -/
def matchAt (s : Str) : Option (PairMatch × Str) :=
  if msgidLit.isPrefixOf s then
    match tryG2 (s.length + 1) (s.drop msgidLit.length) with
    | some (g2, g5, rest) => some (⟨g2, g5⟩, rest)
    | none => none
  else none

/-- A piece of the document under `re.finditer`/`re.sub` scanning: either a
character outside every match, or one matched pair. -/
inductive Piece where
  | raw (c : Char)
  | pm (m : PairMatch)
deriving DecidableEq, Repr

/-- Left-to-right, non-overlapping scan of the document for the pair
pattern, the shared semantics of `re.finditer` and `re.sub`: at each
position try to match; on success continue after the match, otherwise
emit one raw character and advance. -/
def scanAux : Nat → Str → List Piece
  | 0, _ => []
  | fuel + 1, s =>
    match s with
    | [] => []
    | c :: rest =>
      match matchAt s with
      | some (m, rest2) => .pm m :: scanAux fuel rest2
      | none => .raw c :: scanAux fuel rest

/-- Scan a whole document into pieces. -/
def scan (s : Str) : List Piece := scanAux (s.length + 1) s

/-- The original text a piece stands for. -/
def pieceOrig : Piece → Str
  | .raw c => [c]
  | .pm m => matchGroup0 m

/-- The matches of a document in order: `list(re.finditer(pattern, s))`. -/
def pairsOf (s : Str) : List PairMatch :=
  (scan s).filterMap fun p =>
    match p with
    | .pm m => some m
    | .raw _ => none

/-- Last-bound value of a key, Python-`dict` style (later assignments
overwrite earlier ones). -/
def lookupLast (l : List (Str × Str)) (k : Str) : Option Str :=
  l.foldl (fun acc p => if p.1 = k then some p.2 else acc) none

/-- Building `existing_translations` from the prior output catalog, source
lines 140-144: for each pair found in the existing content, store
`dict[group1] = group2` only when both the msgid and the msgstr are
non-empty. -/
def buildExisting (pairs : List PairMatch) : List (Str × Str) :=
  pairs.foldl
    (fun acc m =>
      if ¬ m.g2.isEmpty ∧ ¬ m.g5.isEmpty then acc ++ [(m.g2, m.g5)] else acc)
    []

/-- `translate_match` from source lines 157-199, threading the
`current_count` counter.  Resolution order: empty msgid passes through;
a hit in `existing_translations` is re-emitted with the cached msgstr; a
non-empty inline msgstr passes through; then `should_translate` runs
(outside the `try`, so its `NameError` propagates); a rejected entry
passes through; otherwise the service oracle is consulted inside the
`try`, its result sanitized and emitted with the counter incremented, and
any service exception is caught, leaving the pair unchanged. -/
def translate_match (ex : List (Str × Str)) (oracle : Str → Except PyErr Str)
    (cnt : Nat) (m : PairMatch) : Except PyErr (Str × Nat) :=
  if m.g2.isEmpty then .ok (matchGroup0 m, cnt)
  else
    match lookupLast ex m.g2 with
    | some tr => .ok (mkPair m.g2 tr, cnt)
    | none =>
      if ¬ m.g5.isEmpty then .ok (matchGroup0 m, cnt)
      else
        match should_translate m.g2 with
        | .error e => .error e
        | .ok b =>
          if ¬ b then .ok (matchGroup0 m, cnt)
          else
            match oracle m.g2 with
            | .ok rawReply => .ok (mkPair m.g2 (sanitize rawReply), cnt + 1)
            | .error _ => .ok (matchGroup0 m, cnt)

/-- The `total_untranslated` computation, source lines 202-206:
`sum(1 for m in matches if should_translate(m.group(2)) and not m.group(5)
and m.group(2) not in existing_translations)`.  Python's `and` evaluates
`should_translate` first for every match, so its `NameError` propagates
from here. -/
def countUntranslated (ex : List (Str × Str)) : List PairMatch → Except PyErr Nat
  | [] => .ok 0
  | m :: ms =>
    match should_translate m.g2 with
    | .error e => .error e
    | .ok b =>
      match countUntranslated ex ms with
      | .error e => .error e
      | .ok n =>
        .ok (n + if b ∧ m.g5.isEmpty ∧ lookupLast ex m.g2 = none then 1 else 0)

/-- `re.sub(pattern, translate_match, content)` (source line 212): each
piece is rendered in document order, matched pairs through
`translate_match` with the counter threaded left to right, raw text
unchanged; an exception from the replacement function propagates. -/
def renderPieces (ex : List (Str × Str)) (oracle : Str → Except PyErr Str) :
    List Piece → Nat → Except PyErr (Str × Nat)
  | [], cnt => .ok ([], cnt)
  | .raw c :: ps, cnt =>
    match renderPieces ex oracle ps cnt with
    | .ok (s, cnt') => .ok (c :: s, cnt')
    | .error e => .error e
  | .pm m :: ps, cnt =>
    match translate_match ex oracle cnt m with
    | .ok (t, cnt1) =>
      match renderPieces ex oracle ps cnt1 with
      | .ok (s, cnt2) => .ok (t ++ s, cnt2)
      | .error e => .error e
    | .error e => .error e

/-- `existing_translations` as built at the start of `translate_po_file`
(source lines 135-145): empty when no output file exists, otherwise the
mapping scanned out of the existing output content. -/
def existingOf : Option Str → List (Str × Str)
  | some ec => buildExisting (pairsOf ec)
  | none => []

/-- `translate_po_file` from source lines 122-236, with file IO abstracted:
`existingOut` is the content of the output file when it already exists,
`content` is the template content, `oracle` is the external translation
service.  Returns the content written to the output file together with
`total_untranslated` and the final `current_count`.  Order follows the
source: build `existing_translations`, compute `total_untranslated`
(which may raise), run the substitution (which may raise), then apply the
header patch and write. -/
def translate_po_file (existingOut : Option Str) (content : Str)
    (oracle : Str → Except PyErr Str) : Except PyErr (Str × Nat × Nat) :=
  match countUntranslated (existingOf existingOut) (pairsOf content) with
  | .error e => .error e
  | .ok total =>
    match renderPieces (existingOf existingOut) oracle (scan content) 0 with
    | .error e => .error e
    | .ok (rendered, cnt) => .ok (headerPatch rendered, total, cnt)

/-- A translation-service oracle that always raises, for runs where the
service is never (or unsuccessfully) consulted. -/
def noService : Str → Except PyErr Str := fun _ => .error .serviceError

/-- Substring occurrence test matching the left-to-right scan of
`pyReplaceAux`. -/
def hasSubstr (pat : Str) : Str → Bool
  | [] => pat.isEmpty
  | c :: rest => pat.isPrefixOf (c :: rest) || hasSubstr pat rest

/-- Frame relation between a piece list and a document: the document is the
pieces in order with every raw character byte-identical and each matched
pair replaced by some (arbitrary) text. -/
inductive FrameEq : List Piece → Str → Prop where
  | nil : FrameEq [] []
  | raw (c : Char) (ps : List Piece) (s : Str) :
      FrameEq ps s → FrameEq (.raw c :: ps) (c :: s)
  | pm (m : PairMatch) (t : Str) (ps : List Piece) (s : Str) :
      FrameEq ps s → FrameEq (.pm m :: ps) (t ++ s)

/-! ### Lemmas about the pair-pattern matcher -/

theorem findQuote_eq : ∀ (s b a : Str), findQuote s = some (b, a) → s = b ++ asciiDq :: a := by
  intro s
  induction s with
  | nil => intro b a h; exact Option.noConfusion h
  | cons c rest ih =>
    intro b a h
    rw [findQuote] at h
    split at h
    · simp only [Option.some.injEq, Prod.mk.injEq] at h
      obtain ⟨rfl, rfl⟩ := h
      simp_all
    · split at h
      · rename_i b' a' hfq
        simp only [Option.some.injEq, Prod.mk.injEq] at h
        obtain ⟨rfl, rfl⟩ := h
        simp [ih b' a' hfq]
      · exact Option.noConfusion h

theorem tryClose_eq (s g5 rest : Str) (h : tryClose s = some (g5, rest)) :
    s = msgstrLit ++ g5 ++ asciiDq :: rest := by
  unfold tryClose at h
  split at h
  · rename_i hp
    obtain ⟨t, ht⟩ := List.isPrefixOf_iff_prefix.mp hp
    rw [← ht] at h ⊢
    rw [List.drop_left] at h
    rw [findQuote_eq t g5 rest h]
    simp [List.append_assoc]
  · exact Option.noConfusion h

theorem tryG2_eq : ∀ (fuel : Nat) (s g2 g5 rest : Str),
    tryG2 fuel s = some (g2, g5, rest) →
    s = g2 ++ msgstrLit ++ g5 ++ asciiDq :: rest := by
  intro fuel
  induction fuel with
  | zero => intro s g2 g5 rest h; exact Option.noConfusion h
  | succ n ih =>
    intro s g2 g5 rest h
    cases s with
    | nil =>
      rw [tryG2] at h
      split at h
      · rename_i g5' rest' hclose
        simp only [Option.some.injEq, Prod.mk.injEq] at h
        obtain ⟨rfl, rfl, rfl⟩ := h
        simpa using tryClose_eq [] g5' rest' hclose
      · exact Option.noConfusion h
    | cons c s' =>
      rw [tryG2] at h
      split at h
      · rename_i g5' rest' hclose
        simp only [Option.some.injEq, Prod.mk.injEq] at h
        obtain ⟨rfl, rfl, rfl⟩ := h
        simpa using tryClose_eq (c :: s') g5' rest' hclose
      · split at h
        · rename_i g2' g5' rest' htry
          simp only [Option.some.injEq, Prod.mk.injEq] at h
          obtain ⟨rfl, rfl, rfl⟩ := h
          simp [ih s' g2' g5' rest' htry]
        · exact Option.noConfusion h

theorem matchAt_eq (s : Str) (m : PairMatch) (rest : Str)
    (h : matchAt s = some (m, rest)) : s = matchGroup0 m ++ rest := by
  unfold matchAt at h
  split at h
  · rename_i hp
    obtain ⟨t, ht⟩ := List.isPrefixOf_iff_prefix.mp hp
    rw [← ht] at h ⊢
    rw [List.drop_left] at h
    split at h
    · rename_i g2 g5 rest' htry
      simp only [Option.some.injEq, Prod.mk.injEq] at h
      obtain ⟨rfl, rfl⟩ := h
      rw [tryG2_eq _ _ _ _ _ htry]
      simp [matchGroup0, mkPair, List.append_assoc]
    · exact Option.noConfusion h
  · exact Option.noConfusion h

theorem matchGroup0_length (m : PairMatch) :
    (matchGroup0 m).length = m.g2.length + m.g5.length + 18 := by
  have h1 : msgidLit.length = 7 := rfl
  have h2 : msgstrLit.length = 10 := rfl
  simp [matchGroup0, mkPair, List.length_append, h1, h2]
  omega

theorem matchAt_rest_lt (s : Str) (m : PairMatch) (rest : Str)
    (h : matchAt s = some (m, rest)) : rest.length < s.length := by
  rw [matchAt_eq s m rest h, List.length_append, matchGroup0_length]
  omega

/-- The scan decomposition is lossless: re-joining the original text of all
pieces reproduces the document, so text outside matched pairs is carried
byte-for-byte. -/
theorem scanAux_join : ∀ (fuel : Nat) (s : Str), s.length < fuel →
    ((scanAux fuel s).map pieceOrig).flatten = s := by
  intro fuel
  induction fuel with
  | zero => intro s h; exact absurd h (Nat.not_lt_zero _)
  | succ n ih =>
    intro s hlen
    cases s with
    | nil => rfl
    | cons c rest =>
      rw [scanAux]
      cases hm : matchAt (c :: rest) with
      | some p =>
        obtain ⟨m, rest2⟩ := p
        have heq := matchAt_eq _ _ _ hm
        have hlt := matchAt_rest_lt _ _ _ hm
        have hlen2 : rest2.length < n := by
          simp only [List.length_cons] at hlen hlt
          omega
        simp only [List.map_cons, List.flatten_cons, pieceOrig]
        rw [ih rest2 hlen2]
        exact heq.symm
      | none =>
        have hlen2 : rest.length < n := by
          simp only [List.length_cons] at hlen
          omega
        simp only [List.map_cons, List.flatten_cons, pieceOrig]
        simp [ih rest hlen2]

theorem scan_join (s : Str) : ((scan s).map pieceOrig).flatten = s :=
  scanAux_join _ _ (Nat.lt_succ_self _)

/-- Rendering preserves every raw character in place; only matched pairs are
replaced (by whatever `translate_match` returned for them). -/
theorem renderPieces_frame : ∀ (ps : List Piece) (ex : List (Str × Str))
    (oracle : Str → Except PyErr Str) (cnt : Nat) (s : Str) (cnt' : Nat),
    renderPieces ex oracle ps cnt = .ok (s, cnt') → FrameEq ps s := by
  intro ps
  induction ps with
  | nil =>
    intro ex o cnt s cnt' h
    rw [renderPieces] at h
    simp only [Except.ok.injEq, Prod.mk.injEq] at h
    obtain ⟨rfl, rfl⟩ := h
    exact FrameEq.nil
  | cons p ps ih =>
    intro ex o cnt s cnt' h
    cases p with
    | raw c =>
      rw [renderPieces] at h
      split at h
      · rename_i s1 cnt1 hrec
        simp only [Except.ok.injEq, Prod.mk.injEq] at h
        obtain ⟨rfl, rfl⟩ := h
        exact FrameEq.raw c ps s1 (ih _ _ _ _ _ hrec)
      · exact Except.noConfusion h
    | pm m =>
      rw [renderPieces] at h
      split at h
      · rename_i t cnt1 htm
        split at h
        · rename_i s2 cnt2 hrec
          simp only [Except.ok.injEq, Prod.mk.injEq] at h
          obtain ⟨rfl, rfl⟩ := h
          exact FrameEq.pm m t ps s2 (ih _ _ _ _ _ hrec)
        · exact Except.noConfusion h
      · exact Except.noConfusion h

/-! ### Lemmas about `str.replace` -/

theorem pyReplaceAux_no_occur : ∀ (fuel : Nat) (s old new : Str),
    hasSubstr old s = false → pyReplaceAux old new fuel s = s := by
  intro fuel
  induction fuel with
  | zero => intro s old new _; rfl
  | succ n ih =>
    intro s old new h
    cases s with
    | nil => rfl
    | cons c rest =>
      rw [hasSubstr] at h
      simp only [Bool.or_eq_false_iff] at h
      obtain ⟨h1, h2⟩ := h
      rw [pyReplaceAux, if_neg (by simp [h1]), ih rest old new h2]

theorem pyReplace_no_occur (s old new : Str) (h : hasSubstr old s = false) :
    pyReplace s old new = s := by
  unfold pyReplace
  split
  · rfl
  · exact pyReplaceAux_no_occur _ _ _ _ h

theorem pyReplace_head_occur (old new suf : Str) (hold : old ≠ [])
    (hsuf : hasSubstr old suf = false) :
    pyReplace (old ++ suf) old new = new ++ suf := by
  unfold pyReplace
  rw [if_neg (by simp [hold])]
  cases old with
  | nil => exact absurd rfl hold
  | cons o old' =>
    rw [List.cons_append, pyReplaceAux,
      if_pos (by exact List.isPrefixOf_iff_prefix.mpr ⟨suf, by simp⟩),
      ← List.cons_append, List.drop_left,
      pyReplaceAux_no_occur _ _ _ _ hsuf]

/-! ### Claim theorems -/

/-- C1: the spec says `should_translate` is pure and total over all string
inputs and never raises.  In the code, line 110 (`包含HTML/XML标签的不翻译`) is a
comment missing its `#`: a bare expression over undefined names, so the
call `should_translate("Hello")` raises `NameError` instead of returning a
boolean. -/
theorem C1_classifier_raises_on_plain_text :
    should_translate "Hello".data = Except.error PyErr.nameError := rfl

/-- C2: the spec says every non-empty, non-code, non-markup, non-numeric
string yields `True`.  `"Hello world"` is such a string, yet the code
raises `NameError` at line 110 before the markup and numeric checks can
run, so `True` is never returned. -/
theorem C2_classifier_raises_instead_of_true :
    should_translate "Hello world".data = Except.error PyErr.nameError := rfl

/-- C8: the spec says a trimmed digits-and-symbols string yields `False`.
`"123"` contains no code-sign character, so the code raises `NameError` at
line 110 before reaching the numeric check on lines 116-118. -/
theorem C8_classifier_raises_on_numeric :
    should_translate "123".data = Except.error PyErr.nameError := rfl

/-- The raw service reply used for C5: `你好` followed by backslash, space,
`n`, then `世界` — the malformed newline-escape spacing the sanitizer is
meant to repair. -/
def c5Reply : Str := "你好\\ n世界".data

/-- C5: the claim (and the source's own comment on line 186) says malformed
newline-escape spacing is repaired back into the two-character sequence
backslash+`n`.  The Python replacement string `'\n'` is a single LINE FEED
character, so the code instead deletes the backslash and emits a raw
newline: the line-break marker is corrupted, not repaired. -/
theorem C5_newline_repair_emits_raw_newline :
    sanitize c5Reply = "你好\n世界".data ∧ sanitize c5Reply ≠ "你好\\n世界".data :=
  ⟨rfl, by decide⟩

/-- The C3 template: one entry `msgid "Save"` with an empty msgstr. -/
def c3Template : Str := "msgid \"Save\"\nmsgstr \"\"\n".data

/-- The C3 existing output: the same source text already translated. -/
def c3Existing : Str := "msgid \"Save\"\nmsgstr \"保存\"\n".data

/-- C3: the claim says a cached non-empty translation is emitted for the
entry.  The code instead raises `NameError` while computing
`total_untranslated` (it calls `should_translate("Save")`, which hits the
bare-expression line) before any entry is resolved, so nothing is emitted
at all. -/
theorem C3_merge_crashes_before_cache_reuse :
    translate_po_file (some c3Existing) c3Template noService =
      Except.error PyErr.nameError := rfl

/-- The C7 template: one entry `msgid "Cancel"` with an empty msgstr. -/
def c7Template : Str := "msgid \"Cancel\"\nmsgstr \"\"\n".data

/-- C7: the claim says a service exception for one entry is caught, the
entry passes through, and the document is still written.  The code never
reaches the service call: `should_translate("Cancel")` raises `NameError`
during the `total_untranslated` computation (and the same call inside
`translate_match` sits outside the `try`), so the whole document is
aborted and nothing is written. -/
theorem C7_failure_path_preempted_by_crash :
    translate_po_file none c7Template noService = Except.error PyErr.nameError := rfl

/-- The C4 template: the same msgid `a_b` occurs twice, once with the
inline translation `A` and once with the inline translation `B`.  Both
msgids contain `_`, so the classifier rejects them without hitting the
line-110 crash and both runs of the scenario complete end to end. -/
def c4Template : Str :=
  "msgid \"a_b\"\nmsgstr \"A\"\nmsgid \"a_b\"\nmsgstr \"B\"\n".data

/-- What the second run writes for `c4Template`: `existing_translations`
is a last-write-wins dict, so the cached value for `a_b` is `B`, and the
cached-reuse branch emits it for both occurrences — overwriting the first
occurrence's inline `A`. -/
def c4SecondOut : Str :=
  "msgid \"a_b\"\nmsgstr \"B\"\nmsgid \"a_b\"\nmsgstr \"B\"\n".data

/-- C4: the claim says that merging the same template twice — the first run
with no existing output, the second run fed the first run's output as the
existing catalog only — makes zero service calls in the second run and
writes byte-identical output.  Here the first run completes and writes the
template unchanged with zero calls, and the second run (same template,
first output as existing catalog) also makes zero service calls, but the
last-write-wins `existing_translations` dict maps `a_b` to `B`, so the
cached-reuse branch rewrites the first occurrence's msgstr from `A` to
`B`: the output is not byte-identical, and an already-translated entry is
overwritten — which the program's own docstring (item 8) rules out. -/
theorem C4_round_trip_not_idempotent :
    translate_po_file none c4Template noService = Except.ok (c4Template, 0, 0) ∧
    translate_po_file (some c4Template) c4Template noService =
        Except.ok (c4SecondOut, 0, 0) ∧
    c4SecondOut ≠ c4Template :=
  ⟨rfl, rfl, by decide⟩

/-- The C6 document: the project/version header line already followed by a
`"Language: zh_CN\n"` declaration line. -/
def c6Doc : Str :=
  "\"Project-Id-Version: Odoo Server 18.0\\n\"\n\"Language: zh_CN\\n\"\n".data

/-- C6 counterexample: the claim says the Language line is inserted only
when no language declaration follows the header line, and that in every
other case the document is left untouched by this step.  Here a language
declaration already follows, yet the merge still rewrites the document
(inserting a second Language line). -/
theorem C6_patch_fires_despite_language_line :
    translate_po_file none c6Doc noService = Except.ok (headerPatch c6Doc, 0, 0) ∧
    headerPatch c6Doc ≠ c6Doc :=
  ⟨rfl, by decide⟩

/-- C6 amended: the header patch is an unconditional textual replacement:
a document without the `"Project-Id-Version: Odoo Server` substring is left
untouched, and whenever the document starts with that substring the
`Language: zh_CN` line is inserted right after it regardless of what
follows — including an existing language declaration. -/
theorem C6_header_patch_is_unconditional :
    (∀ c : Str, hasSubstr hdrPat c = false → headerPatch c = c) ∧
    (∀ suf : Str, hasSubstr hdrPat suf = false →
      headerPatch (hdrPat ++ suf) = hdrPat ++ (langInsert ++ suf)) := by
  constructor
  · intro c h
    exact pyReplace_no_occur c hdrPat hdrRepl h
  · intro suf h
    have h1 := pyReplace_head_occur hdrPat hdrRepl suf (by decide) h
    have h2 : hdrRepl = hdrPat ++ langInsert := rfl
    rw [headerPatch, h1, h2, List.append_assoc]

/-- Witness for the amended C6 theorem at concrete inputs. -/
theorem C6_header_patch_is_unconditional_witness :
    headerPatch "abc".data = "abc".data ∧
    headerPatch (hdrPat ++ "X".data) = hdrPat ++ (langInsert ++ "X".data) :=
  ⟨C6_header_patch_is_unconditional.1 "abc".data (by decide),
   C6_header_patch_is_unconditional.2 "X".data (by decide)⟩

/-- C9: whenever the merge completes, the document decomposes into raw text
and matched pairs whose original texts re-join to the template
byte-for-byte, and the output is exactly that sequence with raw characters
unchanged and only matched pairs resolved, followed by the single header
patch. -/
theorem C9_unmatched_text_passes_through (existingOut : Option Str)
    (content : Str) (oracle : Str → Except PyErr Str) (out : Str)
    (total cnt : Nat)
    (h : translate_po_file existingOut content oracle = .ok (out, total, cnt)) :
    ((scan content).map pieceOrig).flatten = content ∧
    ∃ pre, FrameEq (scan content) pre ∧ out = headerPatch pre := by
  refine ⟨scan_join content, ?_⟩
  unfold translate_po_file at h
  split at h
  · exact Except.noConfusion h
  · split at h
    · exact Except.noConfusion h
    · rename_i rendered cnt2 hrender
      simp only [Except.ok.injEq, Prod.mk.injEq] at h
      obtain ⟨rfl, rfl, rfl⟩ := h
      exact ⟨rendered, renderPieces_frame _ _ _ _ _ _ hrender, rfl⟩

/-- The C9 witness document: a comment line, one pair the classifier
rejects without crashing (its msgid contains `_`), and trailing text. -/
def w9Doc : Str := "# hd\nmsgid \"a_b\"\nmsgstr \"\"\nrest\n".data

/-- Witness for C9: a complete run on a concrete crash-free document. -/
theorem C9_unmatched_text_passes_through_witness :
    ((scan w9Doc).map pieceOrig).flatten = w9Doc ∧
    ∃ pre, FrameEq (scan w9Doc) pre ∧ w9Doc = headerPatch pre :=
  C9_unmatched_text_passes_through none w9Doc noService w9Doc 0 0 rfl

/-- C10: every resolution branch of `translate_match` that returns emits a
pair carrying exactly the template's msgid text: the result is
`msgid "<g2>"` + LF + `msgstr "<t>"` for some msgstr text `t`. -/
theorem C10_msgid_preserved (ex : List (Str × Str))
    (oracle : Str → Except PyErr Str) (cnt : Nat) (m : PairMatch)
    (s : Str) (cnt' : Nat)
    (h : translate_match ex oracle cnt m = .ok (s, cnt')) :
    ∃ t, s = mkPair m.g2 t := by
  unfold translate_match at h
  split at h
  · simp only [Except.ok.injEq, Prod.mk.injEq] at h
    obtain ⟨rfl, rfl⟩ := h
    exact ⟨m.g5, rfl⟩
  · split at h
    · rename_i tr hl
      simp only [Except.ok.injEq, Prod.mk.injEq] at h
      obtain ⟨rfl, rfl⟩ := h
      exact ⟨tr, rfl⟩
    · split at h
      · simp only [Except.ok.injEq, Prod.mk.injEq] at h
        obtain ⟨rfl, rfl⟩ := h
        exact ⟨m.g5, rfl⟩
      · split at h
        · exact Except.noConfusion h
        · split at h
          · simp only [Except.ok.injEq, Prod.mk.injEq] at h
            obtain ⟨rfl, rfl⟩ := h
            exact ⟨m.g5, rfl⟩
          · split at h
            · rename_i rawReply horacle
              simp only [Except.ok.injEq, Prod.mk.injEq] at h
              obtain ⟨rfl, rfl⟩ := h
              exact ⟨sanitize rawReply, rfl⟩
            · simp only [Except.ok.injEq, Prod.mk.injEq] at h
              obtain ⟨rfl, rfl⟩ := h
              exact ⟨m.g5, rfl⟩

/-- The C10 witness match: msgid `a_b` (classifier-rejected without a
crash), empty msgstr. -/
def w10Match : PairMatch := ⟨"a_b".data, []⟩

/-- Witness for C10: a concrete resolved entry keeps its msgid. -/
theorem C10_msgid_preserved_witness :
    ∃ t, matchGroup0 w10Match = mkPair w10Match.g2 t :=
  C10_msgid_preserved [] noService 0 w10Match (matchGroup0 w10Match) 0 rfl

end TranslatePo
